import Mathlib

/-
  Shallow embedding of the go-vban VBAN protocol codec
  (package vban: constants.go and vban.go).

  Machine integers are modelled as Nat with explicit `% 256` / `% 2^32`
  truncation where the Go types (uint8 / uint32) matter.  Byte slices are
  `List Nat` whose entries are bytes (< 256) whenever they come off a real
  wire; fallible Go functions returning `error` are modelled with
  `Except String` / `Option String`.
-/

namespace VBAN

/-- Embeds `HeaderMagic` from constants.go: the 'VBAN' magic, little endian. -/
def HeaderMagic : Nat := 0x4E414256

/-- Embeds `MaxStreamNameLen` from constants.go. -/
def MaxStreamNameLen : Nat := 16

/-- Embeds `HeaderSize` from constants.go. -/
def HeaderSize : Nat := 28

/-- Embeds `MaxPacketDataSize` from constants.go. -/
def MaxPacketDataSize : Nat := 1436

/-- Embeds `MaxVBANPacketSize` from constants.go. -/
def MaxVBANPacketSize : Nat := HeaderSize + MaxPacketDataSize

/-- Embeds the `ProtocolAudio` constant (sub-protocol tag 0x00). -/
def ProtocolAudio : Nat := 0x00

/-- Embeds the `ProtocolSerial` constant (sub-protocol tag 0x20). -/
def ProtocolSerial : Nat := 0x20

/-- Embeds the `ProtocolText` constant (sub-protocol tag 0x40). -/
def ProtocolText : Nat := 0x40

/-- Embeds the `ProtocolService` constant (sub-protocol tag 0x60). -/
def ProtocolService : Nat := 0x60

/-- Embeds `ProtocolMask` (mask for sub-protocol bits 5-7). -/
def ProtocolMask : Nat := 0xE0

/-- Embeds `SRMask` (mask for SR/BPS index bits 0-4). -/
def SRMask : Nat := 0x1F

/-- Embeds `SubProtocol.IsAudio` from constants.go. -/
def IsAudio (sp : Nat) : Bool := (sp &&& ProtocolMask) == ProtocolAudio

/-- Embeds `SubProtocol.IsSerial` from constants.go. -/
def IsSerial (sp : Nat) : Bool := (sp &&& ProtocolMask) == ProtocolSerial

/-- Embeds `SubProtocol.IsText` from constants.go. -/
def IsText (sp : Nat) : Bool := (sp &&& ProtocolMask) == ProtocolText

/-- Embeds the `SRList` map from constants.go (SRIndex to sample rate, Audio),
as the association list of the Go map literal. -/
def SRList : List (Nat × Nat) :=
  [(0, 6000), (1, 12000), (2, 24000), (3, 48000), (4, 96000), (5, 192000),
   (6, 384000), (7, 8000), (8, 16000), (9, 32000), (10, 64000), (11, 128000),
   (12, 256000), (13, 512000), (14, 11025), (15, 22050), (16, 44100),
   (17, 88200), (18, 176400), (19, 352800), (20, 705600)]

/-- Embeds the `BPSList` map from constants.go (SRIndex to bits per second,
Serial/Text), as the association list of the Go map literal. -/
def BPSList : List (Nat × Nat) :=
  [(0, 0), (1, 110), (2, 150), (3, 300), (4, 600), (5, 1200), (6, 2400),
   (7, 4800), (8, 9600), (9, 14400), (10, 19200), (11, 31250), (12, 38400),
   (13, 57600), (14, 115200), (15, 128000), (16, 230400), (17, 250000),
   (18, 256000), (19, 460800), (20, 921600), (21, 1000000), (22, 1500000),
   (23, 2000000), (24, 3000000)]

/-- Embeds `SRIndex.GetRate` from constants.go: mask the index, consult the
table selected by the sub-protocol, fall through to 0. -/
def GetRate (sri sp : Nat) : Nat :=
  let index := sri &&& SRMask
  if IsAudio sp then
    match SRList.lookup index with
    | some rate => rate
    | none => 0
  else if IsSerial sp || IsText sp then
    match BPSList.lookup index with
    | some rate => rate
    | none => 0
  else 0

/-- Stated from the spec's words, for comparison with `GetRate`: the rate is
the Audio sample-rate table entry when the sub-protocol is Audio and the
masked index is a defined entry (0..20), the bits-per-second table entry when
the sub-protocol is Serial or Text and the masked index is defined (0..24),
and 0 in every other case. -/
def GetRateSpec (sri sp : Nat) : Nat :=
  let index := sri &&& SRMask
  if sp &&& ProtocolMask = ProtocolAudio ∧ index ≤ 20 then
    (SRList.lookup index).getD 0
  else if (sp &&& ProtocolMask = ProtocolSerial ∨
      sp &&& ProtocolMask = ProtocolText) ∧ index ≤ 24 then
    (BPSList.lookup index).getD 0
  else 0

/-- Embeds the `Header` struct from vban.go.  Field types in Go are uint32 /
uint8 / [16]byte / uint32; here each is a Nat (resp. a list of byte Nats),
with the range constraints of the Go types collected in `Header.WF`. -/
structure Header where
  VBAN : Nat
  FormatSR : Nat
  FormatNbs : Nat
  FormatNbc : Nat
  FormatBit : Nat
  StreamName : List Nat
  NuFrame : Nat
deriving DecidableEq

/-- Range constraints that every Go `Header` value satisfies by its field
types (uint32, uint8, [16]byte). -/
def Header.WF (h : Header) : Prop :=
  h.VBAN < 2 ^ 32 ∧ h.FormatSR < 256 ∧ h.FormatNbs < 256 ∧
  h.FormatNbc < 256 ∧ h.FormatBit < 256 ∧
  h.StreamName.length = MaxStreamNameLen ∧ (∀ b ∈ h.StreamName, b < 256) ∧
  h.NuFrame < 2 ^ 32

instance (h : Header) : Decidable h.WF := by
  unfold Header.WF; infer_instance

/-- The zero value of the Go `Header` struct (what `&Packet{}` starts from). -/
def zeroHeader : Header :=
  { VBAN := 0, FormatSR := 0, FormatNbs := 0, FormatNbc := 0, FormatBit := 0,
    StreamName := List.replicate 16 0, NuFrame := 0 }

/-- Embeds `Header.SetStreamName` from vban.go: `copy` moves
`min (length name) 16` bytes into the fixed field, then the loop zero-fills
the remaining bytes up to `MaxStreamNameLen`. -/
def Header.SetStreamName (h : Header) (name : List Nat) : Header :=
  { h with StreamName :=
      name.take MaxStreamNameLen ++
        List.replicate (MaxStreamNameLen - name.length) 0 }

/-- Embeds `Header.GetStreamName` from vban.go: index of the first zero byte
(or the full length when there is none), then the prefix up to there. -/
def Header.GetStreamName (h : Header) : List Nat :=
  let n := match h.StreamName.findIdx? (fun b => b == 0) with
           | some k => k
           | none => MaxStreamNameLen
  h.StreamName.take n

/-- Embeds `NewHeader` from vban.go: magic plus the sub-protocol byte stored
verbatim in FormatSR (a Go uint8, hence the `% 256`), then `SetStreamName`;
every other field is the zero value. -/
def NewHeader (subProto : Nat) (streamName : List Nat) : Header :=
  Header.SetStreamName
    { VBAN := HeaderMagic, FormatSR := subProto % 256,
      FormatNbs := 0, FormatNbc := 0, FormatBit := 0,
      StreamName := List.replicate 16 0, NuFrame := 0 }
    streamName

/-- Embeds `Header.SubProtocol` from vban.go. -/
def Header.SubProtocol (h : Header) : Nat := h.FormatSR &&& ProtocolMask

/-- Embeds `Header.SRIndex` from vban.go. -/
def Header.SRIndex (h : Header) : Nat := h.FormatSR &&& SRMask

/-- Embeds `Header.SamplesPerFrame` from vban.go: `h.FormatNbs + 1` in Go
uint8 arithmetic, hence the wrap-around `% 256`. -/
def Header.SamplesPerFrame (h : Header) : Nat := (h.FormatNbs + 1) % 256

/-- Embeds `Header.SetSamplesPerFrame` from vban.go.  The Go parameter is a
uint8, so a caller-supplied Nat arrives truncated `% 256`; the function
rejects 0 and stores `nbSamples - 1`. -/
def Header.SetSamplesPerFrame (h : Header) (nbSamples : Nat) :
    Except String Header :=
  if nbSamples % 256 = 0 then
    Except.error "number of samples must be between 1 and 256"
  else Except.ok { h with FormatNbs := nbSamples % 256 - 1 }

/-- Embeds `Header.Channels` from vban.go: `h.FormatNbc + 1` in Go uint8
arithmetic. -/
def Header.Channels (h : Header) : Nat := (h.FormatNbc + 1) % 256

/-- Embeds `Header.SetChannels` from vban.go (uint8 parameter, rejects 0,
stores `nbChannels - 1`). -/
def Header.SetChannels (h : Header) (nbChannels : Nat) :
    Except String Header :=
  if nbChannels % 256 = 0 then
    Except.error "number of channels must be between 1 and 256"
  else Except.ok { h with FormatNbc := nbChannels % 256 - 1 }

/-- Little-endian encoding of a uint32 into 4 bytes, as `binary.Write` with
`binary.LittleEndian` emits it. -/
def u32le (v : Nat) : List Nat :=
  [v % 256, v / 256 % 256, v / 65536 % 256, v / 16777216 % 256]

/-- Little-endian read of a uint32 from the first 4 bytes of a list, as
`binary.Read` with `binary.LittleEndian` performs it on a byte slice. -/
def leU32 (bs : List Nat) : Nat :=
  bs.getD 0 0 + 256 * bs.getD 1 0 + 65536 * bs.getD 2 0 +
    16777216 * bs.getD 3 0

/-- The byte sequence `Header.MarshalBinary` writes: magic (LE), the four
format bytes, the 16 stream-name bytes, the frame counter (LE).  The `% 256`
on the single-byte fields models their Go uint8 type. -/
def Header.marshalBytes (h : Header) : List Nat :=
  u32le h.VBAN ++
    h.FormatSR % 256 :: h.FormatNbs % 256 :: h.FormatNbc % 256 ::
      h.FormatBit % 256 ::
        (h.StreamName.map (fun b => b % 256) ++ u32le h.NuFrame)

/-- Embeds `Header.MarshalBinary` from vban.go: the buffer writes cannot fail
in Go; the final defensive length check is kept. -/
def Header.MarshalBinary (h : Header) : Except String (List Nat) :=
  let out := h.marshalBytes
  if out.length = HeaderSize then Except.ok out
  else Except.error "internal error: marshaled header size mismatch"

/-- Embeds `Header.UnmarshalBinary` from vban.go.  The Go method mutates its
receiver while reading, so the result pairs the optional error with the
receiver's state after the call: a short input leaves the receiver as it
was, a magic mismatch has already overwritten the `VBAN` field, and a
success assigns every field from the wire bytes. -/
def Header.UnmarshalBinary (h : Header) (data : List Nat) :
    Option String × Header :=
  if data.length < HeaderSize then (some "insufficient data for header", h)
  else
    let d := data.take HeaderSize
    let magic := leU32 d
    if magic = HeaderMagic then
      (none,
       { VBAN := magic, FormatSR := d.getD 4 0, FormatNbs := d.getD 5 0,
         FormatNbc := d.getD 6 0, FormatBit := d.getD 7 0,
         StreamName := (d.drop 8).take MaxStreamNameLen,
         NuFrame := leU32 (d.drop 24) })
    else (some "invalid VBAN magic number", { h with VBAN := magic })

/-- Embeds the `Packet` struct from vban.go. -/
structure Packet where
  Header : Header
  Data : List Nat
deriving DecidableEq

/-- Embeds `NewPacket` from vban.go: reject oversize payloads, otherwise
store the header and the payload reference. -/
def NewPacket (header : Header) (data : List Nat) : Except String Packet :=
  if data.length > MaxPacketDataSize then
    Except.error "data size exceeds VBAN maximum"
  else Except.ok { Header := header, Data := data }

/-- Embeds `Packet.MarshalBinary` from vban.go: marshal the header, re-check
the payload bound, concatenate. -/
def Packet.MarshalBinary (p : Packet) : Except String (List Nat) :=
  match p.Header.MarshalBinary with
  | Except.error e => Except.error ("failed to marshal packet header: " ++ e)
  | Except.ok headerBytes =>
      if p.Data.length > MaxPacketDataSize then
        Except.error "data size exceeds VBAN maximum"
      else Except.ok (headerBytes ++ p.Data)

/-- Embeds the free function `UnmarshalBinary` from vban.go: length window
checks, header decode into a fresh zero `Packet`, then a copy of the
remaining bytes as the payload. -/
def UnmarshalBinary (data : List Nat) : Except String Packet :=
  if data.length < HeaderSize then
    Except.error "insufficient data for VBAN packet"
  else if data.length > MaxVBANPacketSize then
    Except.error "packet size exceeds VBAN maximum"
  else
    match Header.UnmarshalBinary zeroHeader (data.take HeaderSize) with
    | (some e, _) => Except.error ("failed to unmarshal VBAN header: " ++ e)
    | (none, h) => Except.ok { Header := h, Data := data.drop HeaderSize }

/-- Embeds the `Conn` struct from vban.go: the socket handle (nil marks the
closed state) and the reusable receive buffer.  The socket type is abstract
(`σ`); UDP side effects enter through explicit operation parameters. -/
structure Conn (σ : Type) where
  udpConn : Option σ
  readBuffer : List Nat

/-- The socket operations `Conn.Send` uses (`WriteToUDP`, `Write`,
`RemoteAddr`), abstracted over the socket type `σ` and address type `α`. -/
structure SockOps (σ α : Type) where
  writeToUDP : σ → List Nat → α → Except String Nat
  write : σ → List Nat → Except String Nat
  remoteAddr : σ → Option α

/-- Embeds `Conn.Close` from vban.go: a nil socket returns success and keeps
the state; otherwise the socket's close result is returned and the handle is
set to nil. -/
def Conn.Close (c : Conn σ) (closeSock : σ → Option String) :
    Option String × Conn σ :=
  match c.udpConn with
  | none => (none, c)
  | some s => (closeSock s, { c with udpConn := none })

/-- The tail of `Conn.Send` after a UDP write: wrap a write error, then check
for a short write. -/
def finishWrite (r : Except String Nat) (packetBytes : List Nat) :
    Except String Unit :=
  match r with
  | Except.error e => Except.error ("UDP write error: " ++ e)
  | Except.ok n =>
      if n = packetBytes.length then Except.ok ()
      else Except.error "incomplete UDP write"

/-- Embeds `Conn.Send` from vban.go: closed-connection and nil-packet guards,
marshal, then either `WriteToUDP` to an explicit address or `Write` to the
dialed address (failing when there is none). -/
def Conn.Send (c : Conn σ) (ops : SockOps σ α) (packet : Option Packet)
    (addr : Option α) : Except String Unit :=
  match c.udpConn with
  | none => Except.error "connection is closed"
  | some s =>
      match packet with
      | none => Except.error "cannot send a nil packet"
      | some p =>
          match p.MarshalBinary with
          | Except.error e =>
              Except.error ("failed to marshal packet for sending: " ++ e)
          | Except.ok packetBytes =>
              match addr with
              | some a => finishWrite (ops.writeToUDP s packetBytes a)
                  packetBytes
              | none =>
                  match ops.remoteAddr s with
                  | none => Except.error
                      "destination address must be provided for non-dialed connections"
                  | some _ => finishWrite (ops.write s packetBytes)
                      packetBytes

/-- Embeds `Conn.Receive` from vban.go: closed guard, blocking read into the
reusable buffer (modelled by `readFromUDP` returning the received bytes and
the sender address), empty- and oversize-datagram checks, then packet
decoding; the sender address is still returned alongside a decode failure. -/
def Conn.Receive (c : Conn σ)
    (readFromUDP : σ → List Nat → Except String (List Nat × α)) :
    Option Packet × Option α × Option String :=
  match c.udpConn with
  | none => (none, none, some "connection is closed")
  | some s =>
      match readFromUDP s c.readBuffer with
      | Except.error e => (none, none, some ("UDP read error: " ++ e))
      | Except.ok (received, remoteAddr) =>
          if received.length = 0 then
            (none, some remoteAddr, some "received empty UDP packet")
          else if received.length > MaxVBANPacketSize then
            (none, some remoteAddr, some "received oversized packet")
          else
            match UnmarshalBinary received with
            | Except.error e =>
                (none, some remoteAddr,
                 some ("failed to unmarshal received data as VBAN packet: "
                   ++ e))
            | Except.ok packet => (some packet, some remoteAddr, none)

/-! Helper lemmas shared by the claim theorems. -/

lemma leU32_u32le (v : Nat) (hv : v < 2 ^ 32) : leU32 (u32le v) = v := by
  simp [leU32, u32le, List.getD_cons_zero, List.getD_cons_succ]
  omega

lemma leU32_take (l : List Nat) (n : Nat) (hn : 4 ≤ n) :
    leU32 (l.take n) = leU32 l := by
  have key : ∀ m : Nat, m < 4 → (l.take n).getD m 0 = l.getD m 0 := by
    intro m hm
    rw [List.getD_eq_getElem?_getD, List.getD_eq_getElem?_getD,
      List.getElem?_take, if_pos (by omega)]
  unfold leU32
  rw [key 0 (by omega), key 1 (by omega), key 2 (by omega), key 3 (by omega)]

lemma marshalBytes_length (h : Header)
    (hlen : h.StreamName.length = MaxStreamNameLen) :
    h.marshalBytes.length = HeaderSize := by
  simp [Header.marshalBytes, u32le, hlen, MaxStreamNameLen, HeaderSize]

lemma streamName_map_mod (l : List Nat) (hb : ∀ b ∈ l, b < 256) :
    l.map (fun b => b % 256) = l := by
  have : l.map (fun b => b % 256) = l.map id :=
    List.map_congr_left (fun b hbmem => Nat.mod_eq_of_lt (hb b hbmem))
  simpa using this

lemma header_unmarshal_short (h0 : Header) (data : List Nat)
    (hlen : data.length < HeaderSize) :
    Header.UnmarshalBinary h0 data =
      (some "insufficient data for header", h0) := by
  unfold Header.UnmarshalBinary
  rw [if_pos hlen]

lemma header_unmarshal_bad_magic (h0 : Header) (data : List Nat)
    (hlen : HeaderSize ≤ data.length) (hmagic : leU32 data ≠ HeaderMagic) :
    Header.UnmarshalBinary h0 data =
      (some "invalid VBAN magic number", { h0 with VBAN := leU32 data }) := by
  unfold Header.UnmarshalBinary
  rw [if_neg (by omega)]
  simp only [leU32_take data HeaderSize (by norm_num [HeaderSize])]
  rw [if_neg hmagic]

lemma header_unmarshal_ok_exists (h0 : Header) (data : List Nat)
    (hlen : HeaderSize ≤ data.length) (hmagic : leU32 data = HeaderMagic) :
    ∃ h, Header.UnmarshalBinary h0 data = (none, h) := by
  unfold Header.UnmarshalBinary
  rw [if_neg (by omega)]
  simp only [leU32_take data HeaderSize (by norm_num [HeaderSize])]
  rw [if_pos hmagic]
  exact ⟨_, rfl⟩

lemma packet_unmarshal_error (data : List Nat)
    (hcond : data.length < HeaderSize ∨ MaxVBANPacketSize < data.length ∨
      leU32 data ≠ HeaderMagic) :
    ∃ e, UnmarshalBinary data = Except.error e := by
  unfold UnmarshalBinary
  by_cases h1 : data.length < HeaderSize
  · rw [if_pos h1]; exact ⟨_, rfl⟩
  · rw [if_neg h1]
    by_cases h2 : data.length > MaxVBANPacketSize
    · rw [if_pos h2]; exact ⟨_, rfl⟩
    · rw [if_neg h2]
      have hm : leU32 data ≠ HeaderMagic := by
        rcases hcond with h | h | h
        · exact absurd h h1
        · exact absurd h h2
        · exact h
      have hlen2 : HeaderSize ≤ (data.take HeaderSize).length := by
        simp [List.length_take]
        omega
      have hm2 : leU32 (data.take HeaderSize) ≠ HeaderMagic := by
        rw [leU32_take data HeaderSize (by norm_num [HeaderSize])]
        exact hm
      rw [header_unmarshal_bad_magic zeroHeader (data.take HeaderSize) hlen2 hm2]
      exact ⟨_, rfl⟩

lemma header_roundtrip_aux (h h0 : Header) (hwf : h.WF)
    (hm : h.VBAN = HeaderMagic) :
    h.MarshalBinary = Except.ok h.marshalBytes ∧
      Header.UnmarshalBinary h0 h.marshalBytes = (none, h) := by
  obtain ⟨hV, hSR, hNbs, hNbc, hBit, hlen, hbytes, hNF⟩ := hwf
  have hL : h.marshalBytes.length = HeaderSize := marshalBytes_length h hlen
  refine ⟨by simp [Header.MarshalBinary, hL], ?_⟩
  obtain ⟨V, fSR, fNbs, fNbc, fBit, SN, NF⟩ := h
  simp only at hV hSR hNbs hNbc hBit hlen hbytes hNF hm hL
  have hSN : SN.map (fun b => b % 256) = SN := streamName_map_mod _ hbytes
  have hSN16 : SN.length = 16 := hlen
  simp only [Header.UnmarshalBinary, Header.marshalBytes] at hL ⊢
  rw [hSN] at hL ⊢
  rw [if_neg (by omega)]
  have htake :
      (u32le V ++ fSR % 256 :: fNbs % 256 :: fNbc % 256 :: fBit % 256 ::
        (SN ++ u32le NF)).take HeaderSize =
      u32le V ++ fSR % 256 :: fNbs % 256 :: fNbc % 256 :: fBit % 256 ::
        (SN ++ u32le NF) := List.take_of_length_le (le_of_eq hL)
  rw [htake]
  have emagic : leU32 (u32le V ++ fSR % 256 :: fNbs % 256 :: fNbc % 256 ::
      fBit % 256 :: (SN ++ u32le NF)) =
      V % 256 + 256 * (V / 256 % 256) + 65536 * (V / 65536 % 256) +
        16777216 * (V / 16777216 % 256) := rfl
  have emagic2 : leU32 (u32le V ++ fSR % 256 :: fNbs % 256 :: fNbc % 256 ::
      fBit % 256 :: (SN ++ u32le NF)) = V := by rw [emagic]; omega
  rw [emagic2, if_pos hm]
  have e4 : (u32le V ++ fSR % 256 :: fNbs % 256 :: fNbc % 256 :: fBit % 256 ::
      (SN ++ u32le NF)).getD 4 0 = fSR % 256 := rfl
  have e5 : (u32le V ++ fSR % 256 :: fNbs % 256 :: fNbc % 256 :: fBit % 256 ::
      (SN ++ u32le NF)).getD 5 0 = fNbs % 256 := rfl
  have e6 : (u32le V ++ fSR % 256 :: fNbs % 256 :: fNbc % 256 :: fBit % 256 ::
      (SN ++ u32le NF)).getD 6 0 = fNbc % 256 := rfl
  have e7 : (u32le V ++ fSR % 256 :: fNbs % 256 :: fNbc % 256 :: fBit % 256 ::
      (SN ++ u32le NF)).getD 7 0 = fBit % 256 := rfl
  have e8 : (u32le V ++ fSR % 256 :: fNbs % 256 :: fNbc % 256 :: fBit % 256 ::
      (SN ++ u32le NF)).drop 8 = SN ++ u32le NF := rfl
  have e24 : (u32le V ++ fSR % 256 :: fNbs % 256 :: fNbc % 256 :: fBit % 256 ::
      (SN ++ u32le NF)).drop 24 = (SN ++ u32le NF).drop 16 := rfl
  rw [e4, e5, e6, e7, e8, e24, List.drop_left' hSN16, leU32_u32le NF hNF,
    List.take_left' hlen, Nat.mod_eq_of_lt hSR, Nat.mod_eq_of_lt hNbs,
    Nat.mod_eq_of_lt hNbc, Nat.mod_eq_of_lt hBit, hm]

lemma packet_roundtrip_aux (p : Packet) (hwf : p.Header.WF)
    (hm : p.Header.VBAN = HeaderMagic)
    (hd : p.Data.length ≤ MaxPacketDataSize) :
    p.MarshalBinary = Except.ok (p.Header.marshalBytes ++ p.Data) ∧
      UnmarshalBinary (p.Header.marshalBytes ++ p.Data) = Except.ok p := by
  obtain ⟨h, data⟩ := p
  simp only at hwf hm hd ⊢
  obtain ⟨hmar, hunm⟩ := header_roundtrip_aux h zeroHeader hwf hm
  have hL : h.marshalBytes.length = HeaderSize :=
    marshalBytes_length h hwf.2.2.2.2.2.1
  have hlenfull : (h.marshalBytes ++ data).length =
      HeaderSize + data.length := by
    simp [List.length_append, hL]
  constructor
  · simp only [Packet.MarshalBinary, hmar]
    rw [if_neg (by omega)]
  · unfold UnmarshalBinary
    rw [if_neg (by omega),
      if_neg (by simp [hlenfull, MaxVBANPacketSize]; omega)]
    rw [List.take_left' hL, hunm]
    rw [List.drop_left' hL]

lemma getRate_index_mask (sri sp : Nat) :
    GetRate sri sp = GetRate (sri &&& SRMask) sp := by
  unfold GetRate
  rw [Nat.and_assoc, Nat.and_self]

lemma getRateSpec_index_mask (sri sp : Nat) :
    GetRateSpec sri sp = GetRateSpec (sri &&& SRMask) sp := by
  unfold GetRateSpec
  rw [Nat.and_assoc, Nat.and_self]

set_option maxRecDepth 100000 in
set_option maxHeartbeats 2000000 in
lemma rate_refinement_base :
    ∀ sp < 256, ∀ i < 32, GetRate i sp = GetRateSpec i sp := by decide

lemma findIdx_append_zeros (l : List Nat) (hz : ∀ b ∈ l, b ≠ 0)
    (m : Nat) (hm : 0 < m) : ∀ i : Nat,
    (l ++ List.replicate m 0).findIdx? (fun b => b == 0) i =
      some (i + l.length) := by
  induction l with
  | nil =>
      intro i
      obtain ⟨k, rfl⟩ := Nat.exists_eq_add_of_lt hm
      simp [List.replicate, List.findIdx?_cons]
  | cons a t ih =>
      intro i
      have ha : a ≠ 0 := hz a (List.mem_cons_self a t)
      have hpa : ((a == 0) : Bool) = false := by
        simp [ha]
      rw [List.cons_append, List.findIdx?_cons, hpa]
      simp only [Bool.false_eq_true, if_false]
      rw [ih (fun b hb => hz b (List.mem_cons_of_mem a hb)) (i + 1)]
      simp [List.length_cons]
      omega

/-! The claim theorems. -/

/-- C1: Header round trip — for every well-formed header whose magic field
equals the protocol constant, `Header.MarshalBinary` succeeds and
`Header.UnmarshalBinary` applied to its 28-byte output (on any receiver)
succeeds and reproduces the header field-for-field. -/
theorem header_roundtrip (h h0 : Header) (hwf : h.WF)
    (hm : h.VBAN = HeaderMagic) :
    ∃ bs, h.MarshalBinary = Except.ok bs ∧
      Header.UnmarshalBinary h0 bs = (none, h) :=
  ⟨h.marshalBytes, header_roundtrip_aux h h0 hwf hm⟩

/-- C1 witness: the round trip evaluated at a concrete header. -/
theorem header_roundtrip_witness :
    ∃ bs,
      Header.MarshalBinary
        { VBAN := HeaderMagic, FormatSR := 0x23, FormatNbs := 63,
          FormatNbc := 1, FormatBit := 0x10,
          StreamName := List.replicate 16 65, NuFrame := 12345 } =
        Except.ok bs ∧
      Header.UnmarshalBinary zeroHeader bs =
        (none,
         { VBAN := HeaderMagic, FormatSR := 0x23, FormatNbs := 63,
           FormatNbc := 1, FormatBit := 0x10,
           StreamName := List.replicate 16 65, NuFrame := 12345 }) :=
  header_roundtrip
    { VBAN := HeaderMagic, FormatSR := 0x23, FormatNbs := 63,
      FormatNbc := 1, FormatBit := 0x10,
      StreamName := List.replicate 16 65, NuFrame := 12345 }
    zeroHeader (by decide) rfl

/-- C2: the code evaluated where the claim breaks.  The samples/channels
accessors and mutators operate on Go uint8 values: an intended argument of
256 arrives as `uint8(256) = 0` and is rejected rather than accepted, and on
a stored byte of 255 the accessor wraps to 0 instead of returning 256, so the
decoded range is 0..255, not 1..256.  The in-range parts of the claim (0 is
rejected, 1 stores wire byte 0, byte b decodes to b+1 for b < 255) do hold,
as evaluated here at the boundaries. -/
theorem samples_channels_uint8_eval :
    Header.SamplesPerFrame { zeroHeader with FormatNbs := 255 } = 0 ∧
    Header.Channels { zeroHeader with FormatNbc := 255 } = 0 ∧
    Header.SamplesPerFrame { zeroHeader with FormatNbs := 254 } = 255 ∧
    Header.Channels { zeroHeader with FormatNbc := 254 } = 255 ∧
    Header.SetSamplesPerFrame zeroHeader 256 =
      Except.error "number of samples must be between 1 and 256" ∧
    Header.SetChannels zeroHeader 256 =
      Except.error "number of channels must be between 1 and 256" ∧
    Header.SetSamplesPerFrame zeroHeader 0 =
      Except.error "number of samples must be between 1 and 256" ∧
    Header.SetChannels zeroHeader 0 =
      Except.error "number of channels must be between 1 and 256" ∧
    Header.SetSamplesPerFrame zeroHeader 1 =
      Except.ok { zeroHeader with FormatNbs := 0 } ∧
    Header.SetChannels zeroHeader 1 =
      Except.ok { zeroHeader with FormatNbc := 0 } ∧
    Header.SetSamplesPerFrame zeroHeader 255 =
      Except.ok { zeroHeader with FormatNbs := 254 } :=
  ⟨rfl, rfl, rfl, rfl, rfl, rfl, rfl, rfl, rfl, rfl, rfl⟩

/-- C3: magic rejection — for every input of at least 28 bytes whose first
4 bytes, read little-endian, differ from the magic constant,
`Header.UnmarshalBinary` fails with the protocol error, and (within the
packet ceiling) the packet-level `UnmarshalBinary` fails as well, for all
values of the remaining bytes. -/
theorem magic_rejection (data : List Nat) (h0 : Header)
    (hlen : HeaderSize ≤ data.length) (hmagic : leU32 data ≠ HeaderMagic) :
    (Header.UnmarshalBinary h0 data).1 = some "invalid VBAN magic number" ∧
    (data.length ≤ MaxVBANPacketSize →
      ∃ e, UnmarshalBinary data = Except.error e) := by
  constructor
  · rw [header_unmarshal_bad_magic h0 data hlen hmagic]
  · intro _
    exact packet_unmarshal_error data (Or.inr (Or.inr hmagic))

/-- C3 witness: 28 zero bytes are rejected at both layers. -/
theorem magic_rejection_witness :
    (Header.UnmarshalBinary zeroHeader (List.replicate 28 0)).1 =
      some "invalid VBAN magic number" ∧
    ((List.replicate 28 0 : List Nat).length ≤ MaxVBANPacketSize →
      ∃ e, UnmarshalBinary (List.replicate 28 0) = Except.error e) :=
  magic_rejection (List.replicate 28 0) zeroHeader
    (by simp [HeaderSize]) (by decide)

/-- C4: packet round trip — for every packet with a well-formed header
carrying the magic constant and a payload of at most 1436 bytes,
`Packet.MarshalBinary` succeeds and the free `UnmarshalBinary` applied to
its output reproduces the header and the payload bytes exactly. -/
theorem packet_roundtrip (p : Packet) (hwf : p.Header.WF)
    (hm : p.Header.VBAN = HeaderMagic)
    (hd : p.Data.length ≤ MaxPacketDataSize) :
    ∃ bs, p.MarshalBinary = Except.ok bs ∧
      UnmarshalBinary bs = Except.ok p :=
  ⟨p.Header.marshalBytes ++ p.Data, packet_roundtrip_aux p hwf hm hd⟩

/-- C4 witness: the packet round trip evaluated at a concrete packet. -/
theorem packet_roundtrip_witness :
    ∃ bs,
      Packet.MarshalBinary
        { Header := { zeroHeader with VBAN := HeaderMagic },
          Data := [1, 2, 3] } = Except.ok bs ∧
      UnmarshalBinary bs =
        Except.ok
          { Header := { zeroHeader with VBAN := HeaderMagic },
            Data := [1, 2, 3] } :=
  packet_roundtrip
    { Header := { zeroHeader with VBAN := HeaderMagic }, Data := [1, 2, 3] }
    (by decide) rfl (by decide)

/-- C5: size boundaries — `NewPacket` succeeds up to a 1436-byte payload and
fails beyond it; packet-level `UnmarshalBinary` fails below 28 input bytes,
succeeds with an empty payload at exactly 28 bytes when the header magic is
valid, and fails above 1464 bytes. -/
theorem size_boundaries :
    (∀ (header : Header) (data : List Nat),
      data.length ≤ MaxPacketDataSize →
      NewPacket header data = Except.ok { Header := header, Data := data }) ∧
    (∀ (header : Header) (data : List Nat),
      MaxPacketDataSize < data.length →
      ∃ e, NewPacket header data = Except.error e) ∧
    (∀ data : List Nat, data.length < HeaderSize →
      ∃ e, UnmarshalBinary data = Except.error e) ∧
    (∀ data : List Nat, data.length = HeaderSize →
      leU32 data = HeaderMagic →
      ∃ p, UnmarshalBinary data = Except.ok p ∧ p.Data = []) ∧
    (∀ data : List Nat, MaxVBANPacketSize < data.length →
      ∃ e, UnmarshalBinary data = Except.error e) := by
  refine ⟨?_, ?_, ?_, ?_, ?_⟩
  · intro header data hle
    unfold NewPacket
    rw [if_neg (by omega)]
  · intro header data hgt
    unfold NewPacket
    rw [if_pos (by omega)]
    exact ⟨_, rfl⟩
  · intro data hlt
    exact packet_unmarshal_error data (Or.inl hlt)
  · intro data hlen hmagic
    have h28 : data.length = 28 := by simpa [HeaderSize] using hlen
    unfold UnmarshalBinary
    rw [if_neg (by omega),
      if_neg (by norm_num [MaxVBANPacketSize, MaxPacketDataSize, HeaderSize,
        h28])]
    rw [List.take_of_length_le (by omega)]
    obtain ⟨h, hh⟩ := header_unmarshal_ok_exists zeroHeader data (by omega)
      hmagic
    rw [hh]
    refine ⟨_, rfl, ?_⟩
    simp [List.drop_eq_nil_of_le (by omega : data.length ≤ HeaderSize)]
  · intro data hgt
    exact packet_unmarshal_error data (Or.inr (Or.inl hgt))

/-- C5 witness: the boundaries evaluated at payloads of 1436 and 1437 bytes
and at inputs of 27, 28 (valid magic) and 1465 bytes. -/
theorem size_boundaries_witness :
    NewPacket zeroHeader (List.replicate 1436 0) =
      Except.ok { Header := zeroHeader, Data := List.replicate 1436 0 } ∧
    (∃ e, NewPacket zeroHeader (List.replicate 1437 0) = Except.error e) ∧
    (∃ e, UnmarshalBinary (List.replicate 27 0) = Except.error e) ∧
    (∃ p, UnmarshalBinary (u32le HeaderMagic ++ List.replicate 24 0) =
      Except.ok p ∧ p.Data = []) ∧
    (∃ e, UnmarshalBinary (List.replicate 1465 0) = Except.error e) :=
  ⟨size_boundaries.1 zeroHeader (List.replicate 1436 0)
      (by norm_num [MaxPacketDataSize]),
   size_boundaries.2.1 zeroHeader (List.replicate 1437 0)
      (by norm_num [MaxPacketDataSize]),
   size_boundaries.2.2.1 (List.replicate 27 0) (by norm_num [HeaderSize]),
   size_boundaries.2.2.2.1 (u32le HeaderMagic ++ List.replicate 24 0)
      (by decide) (by decide),
   size_boundaries.2.2.2.2 (List.replicate 1465 0)
      (by norm_num [MaxVBANPacketSize, MaxPacketDataSize, HeaderSize])⟩

/-- C6 counterexample: on a 28-byte input with bad magic (first byte 1, rest
zero), `Header.UnmarshalBinary` fails but does NOT leave the receiver
unchanged — the bad wire magic has been written into the receiver's `VBAN`
field, contradicting the claim that on a protocol error every field of the
receiver is unchanged. -/
theorem decode_atomicity_cex :
    (Header.UnmarshalBinary zeroHeader
      (1 :: List.replicate 27 0)).1.isSome = true ∧
    (Header.UnmarshalBinary zeroHeader (1 :: List.replicate 27 0)).2 ≠
      zeroHeader := by
  constructor
  · rfl
  · intro hcontra
    have : (Header.UnmarshalBinary zeroHeader
        (1 :: List.replicate 27 0)).2.VBAN = 1 := rfl
    rw [hcontra] at this
    exact absurd this (by decide)

/-- C6 amended: packet-level `UnmarshalBinary` returns no packet on any
decode failure (short input, oversize input, or bad magic);
`Header.UnmarshalBinary` leaves the receiver unchanged when the input is
shorter than 28 bytes, but on a bad-magic failure it has already overwritten
the receiver's `VBAN` field with the wire value — every other field is
unchanged. -/
theorem decode_atomicity_amended :
    (∀ (h0 : Header) (data : List Nat), data.length < HeaderSize →
      Header.UnmarshalBinary h0 data =
        (some "insufficient data for header", h0)) ∧
    (∀ (h0 : Header) (data : List Nat), HeaderSize ≤ data.length →
      leU32 data ≠ HeaderMagic →
      Header.UnmarshalBinary h0 data =
        (some "invalid VBAN magic number",
         { h0 with VBAN := leU32 data })) ∧
    (∀ data : List Nat,
      data.length < HeaderSize ∨ MaxVBANPacketSize < data.length ∨
        leU32 data ≠ HeaderMagic →
      ∃ e, UnmarshalBinary data = Except.error e) :=
  ⟨header_unmarshal_short, header_unmarshal_bad_magic,
   packet_unmarshal_error⟩

/-- C6 witness: the amended behavior evaluated on a 3-byte input and on a
28-byte bad-magic input. -/
theorem decode_atomicity_amended_witness :
    Header.UnmarshalBinary zeroHeader [1, 2, 3] =
      (some "insufficient data for header", zeroHeader) ∧
    Header.UnmarshalBinary zeroHeader (1 :: List.replicate 27 0) =
      (some "invalid VBAN magic number",
       { zeroHeader with VBAN := leU32 (1 :: List.replicate 27 0) }) ∧
    (∃ e, UnmarshalBinary (1 :: List.replicate 27 0) = Except.error e) :=
  ⟨decode_atomicity_amended.1 zeroHeader [1, 2, 3] (by norm_num [HeaderSize]),
   decode_atomicity_amended.2.1 zeroHeader (1 :: List.replicate 27 0)
      (by simp [HeaderSize]) (by decide),
   decode_atomicity_amended.2.2 (1 :: List.replicate 27 0)
      (Or.inr (Or.inr (by decide)))⟩

/-- C7 counterexample: for the sub-protocol byte 0x01 (a value whose low 5
bits are not zero), `NewHeader` stores the byte verbatim, so the rate index
of the new header is 1, not 0 — the claim's "for every subProtocol value ...
SRIndex() returns 0" fails. -/
theorem newHeader_cex : Header.SRIndex (NewHeader 1 []) ≠ 0 := by decide

/-- C7 amended: `NewHeader` sets the magic constant, stores the subProtocol
byte verbatim in the first format byte (so the top 3 bits carry the
sub-protocol tag and `SRIndex()` returns the low 5 bits of the argument,
which is 0 exactly when those bits are zero — as they are for all defined
protocol constants), writes the stream name exactly as `SetStreamName`
would, and leaves every remaining field zero. -/
theorem newHeader_amended (sp : Nat) (name : List Nat) (hsp : sp < 256) :
    (NewHeader sp name).VBAN = HeaderMagic ∧
    (NewHeader sp name).FormatSR = sp ∧
    (NewHeader sp name).SubProtocol = sp &&& ProtocolMask ∧
    (NewHeader sp name).SRIndex = sp &&& SRMask ∧
    (sp &&& SRMask = 0 → (NewHeader sp name).SRIndex = 0) ∧
    (NewHeader sp name).StreamName =
      (Header.SetStreamName zeroHeader name).StreamName ∧
    (NewHeader sp name).FormatNbs = 0 ∧
    (NewHeader sp name).FormatNbc = 0 ∧
    (NewHeader sp name).FormatBit = 0 ∧
    (NewHeader sp name).NuFrame = 0 := by
  unfold NewHeader Header.SetStreamName Header.SubProtocol Header.SRIndex
  simp [Nat.mod_eq_of_lt hsp]

/-- C7 witness: the amended construction evaluated at the Serial tag. -/
theorem newHeader_amended_witness :
    (NewHeader 0x20 [86, 77]).VBAN = HeaderMagic ∧
    (NewHeader 0x20 [86, 77]).FormatSR = 0x20 ∧
    (NewHeader 0x20 [86, 77]).SubProtocol = 0x20 &&& ProtocolMask ∧
    (NewHeader 0x20 [86, 77]).SRIndex = 0x20 &&& SRMask ∧
    (0x20 &&& SRMask = 0 → (NewHeader 0x20 [86, 77]).SRIndex = 0) ∧
    (NewHeader 0x20 [86, 77]).StreamName =
      (Header.SetStreamName zeroHeader [86, 77]).StreamName ∧
    (NewHeader 0x20 [86, 77]).FormatNbs = 0 ∧
    (NewHeader 0x20 [86, 77]).FormatNbc = 0 ∧
    (NewHeader 0x20 [86, 77]).FormatBit = 0 ∧
    (NewHeader 0x20 [86, 77]).NuFrame = 0 :=
  newHeader_amended 0x20 [86, 77] (by norm_num)

/-- C8 counterexample: the single-byte name [0] has fewer than 16 bytes, yet
`GetStreamName` after `SetStreamName` returns the empty name, not the set
name — the claim's "for every name of fewer than 16 bytes ... GetStreamName
then returns exactly the set name" fails for names with an embedded zero
byte. -/
theorem stream_name_cex :
    Header.GetStreamName (Header.SetStreamName zeroHeader [0]) ≠ [0] := by
  decide

/-- C8 amended: `SetStreamName` stores the first 16 bytes of the name and
zero-fills the rest of the field (so no stale bytes survive); for a name of
fewer than 16 bytes containing no zero byte `GetStreamName` returns exactly
the set name; for a 16-byte name with no zero byte it returns all 16 bytes;
longer names are stored truncated to their first 16 bytes. -/
theorem stream_name_amended (h : Header) (name : List Nat) :
    ((Header.SetStreamName h name).StreamName =
      name.take MaxStreamNameLen ++
        List.replicate (MaxStreamNameLen - name.length) 0) ∧
    (name.length < MaxStreamNameLen → (0 : Nat) ∉ name →
      (Header.SetStreamName h name).StreamName =
        name ++ List.replicate (MaxStreamNameLen - name.length) 0 ∧
      Header.GetStreamName (Header.SetStreamName h name) = name) ∧
    (name.length = MaxStreamNameLen → (0 : Nat) ∉ name →
      Header.GetStreamName (Header.SetStreamName h name) = name) ∧
    (MaxStreamNameLen ≤ name.length →
      (Header.SetStreamName h name).StreamName =
        name.take MaxStreamNameLen) := by
  refine ⟨rfl, ?_, ?_, ?_⟩
  · intro hlt hz
    have htake : name.take MaxStreamNameLen = name :=
      List.take_of_length_le (le_of_lt hlt)
    have hzb : ∀ b ∈ name, b ≠ 0 := fun b hb hb0 => hz (hb0 ▸ hb)
    constructor
    · unfold Header.SetStreamName
      rw [htake]
    · unfold Header.GetStreamName Header.SetStreamName
      simp only [htake]
      rw [findIdx_append_zeros name hzb (MaxStreamNameLen - name.length)
        (by unfold MaxStreamNameLen at hlt ⊢; omega) 0]
      simp only [Nat.zero_add]
      exact List.take_left' rfl
  · intro hlen hz
    have htake : name.take MaxStreamNameLen = name :=
      List.take_of_length_le (le_of_eq hlen)
    have hrep : List.replicate (MaxStreamNameLen - name.length) (0 : Nat) =
        [] := by rw [hlen]; simp
    unfold Header.GetStreamName Header.SetStreamName
    simp only [htake, hrep, List.append_nil]
    have hnone : name.findIdx? (fun b => b == 0) = none :=
      List.findIdx?_eq_none_iff.2 (fun x hx => by
        simp only [beq_eq_false_iff_ne]
        exact fun h0 => hz (h0 ▸ hx))
    rw [hnone]
    rw [← hlen]
    exact List.take_length name
  · intro hge
    unfold Header.SetStreamName
    rw [Nat.sub_eq_zero_of_le hge]
    simp

/-- C8 witness: the amended stream-name behavior evaluated at a 2-byte
zero-free name. -/
theorem stream_name_amended_witness :
    ((Header.SetStreamName zeroHeader [72, 105]).StreamName =
      [72, 105].take MaxStreamNameLen ++
        List.replicate (MaxStreamNameLen - 2) 0) ∧
    (([72, 105] : List Nat).length < MaxStreamNameLen → (0 : Nat) ∉ [72, 105] →
      (Header.SetStreamName zeroHeader [72, 105]).StreamName =
        [72, 105] ++ List.replicate (MaxStreamNameLen - 2) 0 ∧
      Header.GetStreamName (Header.SetStreamName zeroHeader [72, 105]) =
        [72, 105]) ∧
    (([72, 105] : List Nat).length = MaxStreamNameLen → (0 : Nat) ∉ [72, 105] →
      Header.GetStreamName (Header.SetStreamName zeroHeader [72, 105]) =
        [72, 105]) ∧
    (MaxStreamNameLen ≤ ([72, 105] : List Nat).length →
      (Header.SetStreamName zeroHeader [72, 105]).StreamName =
        [72, 105].take MaxStreamNameLen) :=
  stream_name_amended zeroHeader [72, 105]

/-- C9: rate lookup totality — for every uint8 sub-protocol and rate index,
`GetRate` equals the spec-side function that returns the Audio table entry
for Audio with defined masked index (0..20), the BPS table entry for
Serial/Text with defined masked index (0..24), and 0 in every other case;
being a total function into Nat it never fails with an error. -/
theorem rate_lookup_total :
    ∀ sp, sp < 256 → ∀ sri, sri < 256 →
      GetRate sri sp = GetRateSpec sri sp := by
  intro sp hsp sri _
  rw [getRate_index_mask, getRateSpec_index_mask]
  exact rate_refinement_base sp hsp (sri &&& SRMask)
    (lt_of_le_of_lt Nat.and_le_right (by norm_num [SRMask]))

/-- C9 witness: the rate refinement evaluated at the Text tag with an
undefined masked index (200 masks to 8, which is defined; also checks an
out-of-table case via the theorem instance at 0x60). -/
theorem rate_lookup_total_witness :
    GetRate 200 0x40 = GetRateSpec 200 0x40 ∧
    GetRate 21 0x60 = GetRateSpec 21 0x60 :=
  ⟨rate_lookup_total 0x40 (by norm_num) 200 (by norm_num),
   rate_lookup_total 0x60 (by norm_num) 21 (by norm_num)⟩

/-- C10: closed-endpoint state machine — `Close` always leaves the endpoint
with a nil socket handle; on an endpoint whose handle is nil, `Send` and
`Receive` fail immediately with the "connection is closed" error for every
possible socket behavior (so the socket is never touched), and `Close` is a
no-op returning success and preserving the closed state, which is therefore
terminal. -/
theorem conn_closed_terminal {σ α : Type} :
    (∀ (c : Conn σ) (closeSock : σ → Option String),
      ((Conn.Close c closeSock).2).udpConn = none) ∧
    (∀ c : Conn σ, c.udpConn = none →
      (∀ (ops : SockOps σ α) (packet : Option Packet) (addr : Option α),
        Conn.Send c ops packet addr =
          Except.error "connection is closed") ∧
      (∀ readFromUDP : σ → List Nat → Except String (List Nat × α),
        Conn.Receive c readFromUDP =
          (none, none, some "connection is closed")) ∧
      (∀ closeSock : σ → Option String,
        Conn.Close c closeSock = (none, c))) := by
  constructor
  · intro c f
    rcases c with ⟨u, rb⟩
    cases u <;> rfl
  · intro c hc
    rcases c with ⟨u, rb⟩
    cases u with
    | none => exact ⟨fun ops p a => rfl, fun r => rfl, fun f => rfl⟩
    | some s => exact absurd hc (by simp)

/-- C10 witness: the closed-endpoint behavior evaluated on a concrete
endpoint over the unit socket type, with socket operations that would
succeed if they were ever consulted. -/
theorem conn_closed_terminal_witness :
    ((Conn.Close (⟨some (), []⟩ : Conn Unit) (fun _ => some "boom")).2).udpConn
      = none ∧
    Conn.Send (⟨none, []⟩ : Conn Unit)
      (⟨fun _ bs _ => Except.ok bs.length, fun _ bs => Except.ok bs.length,
        fun _ => some ()⟩ : SockOps Unit Unit) none none =
      Except.error "connection is closed" ∧
    Conn.Receive (⟨none, []⟩ : Conn Unit)
      (fun _ _ => Except.ok ([1], ())) =
      (none, none, some "connection is closed") ∧
    Conn.Close (⟨none, []⟩ : Conn Unit) (fun _ => some "boom") =
      (none, (⟨none, []⟩ : Conn Unit)) :=
  ⟨(@conn_closed_terminal Unit Unit).1 ⟨some (), []⟩ (fun _ => some "boom"),
   ((@conn_closed_terminal Unit Unit).2 ⟨none, []⟩ rfl).1
      ⟨fun _ bs _ => Except.ok bs.length, fun _ bs => Except.ok bs.length,
        fun _ => some ()⟩ none none,
   ((@conn_closed_terminal Unit Unit).2 ⟨none, []⟩ rfl).2.1
      (fun _ _ => Except.ok ([1], ())),
   ((@conn_closed_terminal Unit Unit).2 ⟨none, []⟩ rfl).2.2
      (fun _ => some "boom")⟩

end VBAN
